import Mathlib

/-!
Shallow embedding of the filter builder, filter compiler and vector-store
operations of `mem0/vector_stores/qdrant.py`, with theorems checking the
specification's claims about them.
-/

namespace Mem0

/-- A Python value as it flows through the filter layer: scalars, or a
sub-mapping (Python `dict`, modelled as an association list). -/
inductive PyVal where
  | str : String → PyVal
  | int : Int → PyVal
  | bool : Bool → PyVal
  | float : Rat → PyVal
  | dict : List (String × PyVal) → PyVal

/-- Whether a value is a Python `dict` (the `isinstance(value, dict)` test). -/
def PyVal.isDict : PyVal → Bool
  | .dict _ => true
  | _ => false

/-- Python `key in d` for a dict modelled as an association list. -/
def containsKey (d : List (String × PyVal)) (k : String) : Bool :=
  d.any (fun kv => kv.1 = k)

/-- Python `d.get(key)` for a dict modelled as an association list. -/
def getKey (d : List (String × PyVal)) (k : String) : Option PyVal :=
  (d.find? (fun kv => kv.1 = k)).map (fun kv => kv.2)

/-- A point id: caller-supplied string, or the positional index that
`insert` assigns when the caller passes no ids. -/
abbrev PointId := String ⊕ Nat

/-- Record payload: mapping of string keys to values. -/
abbrev Payload := List (String × PyVal)

/-- Leaf filter conditions (the `qdrant_client.models` condition objects the
builder and the compiler construct). Range and values-count bounds are
`Option`s: an argument not passed stays `None`. -/
inductive Condition where
  | fieldMatchValue (key : String) (value : PyVal)
  | fieldMatchAny (key : String) (values : List PyVal)
  | fieldMatchExcept (key : String) (values : List PyVal)
  | fieldRange (key : String) (gt gte lt lte : Option PyVal)
  | hasId (ids : List PointId)
  | hasVector (name : String)
  | isEmpty (key : String)
  | isNull (key : String)
  | fieldValuesCount (key : String) (gt gte lt lte : Option Int)

/-- The backend-native filter (`qdrant_client.models.Filter`): three optional
clause lists; a field not passed to the constructor stays `None`. -/
structure Filter where
  must : Option (List Condition)
  should : Option (List Condition)
  mustNot : Option (List Condition)

/-- Builder state of `QdrantFilter`: the flat condition list `_conditions`
and the three slots `_must`, `_should`, `_must_not`. -/
structure QdrantFilter where
  conditions : List Condition
  mustSlot : List Condition
  shouldSlot : List Condition
  mustNotSlot : List Condition

/-- Source `QdrantFilter.__init__`: all four lists start empty. -/
def QdrantFilter.empty : QdrantFilter :=
  { conditions := [], mustSlot := [], shouldSlot := [], mustNotSlot := [] }

/-- Source `QdrantFilter.build`: raises `ValueError` when flat conditions coexist
with any must/should/must_not clause; otherwise a flat list becomes
`Filter(must=conditions)` and the slots become `Filter` clauses, an empty
slot passed as `None`. -/
def QdrantFilter.build (f : QdrantFilter) : Except String Filter :=
  if !f.conditions.isEmpty then
    if !f.mustSlot.isEmpty || !f.shouldSlot.isEmpty || !f.mustNotSlot.isEmpty then
      .error "Cannot mix conditions with must/should/must_not clauses"
    else
      .ok { must := some f.conditions, should := none, mustNot := none }
  else
    .ok { must := if f.mustSlot.isEmpty then none else some f.mustSlot,
          should := if f.shouldSlot.isEmpty then none else some f.shouldSlot,
          mustNot := if f.mustNotSlot.isEmpty then none else some f.mustNotSlot }

/-- Source `QdrantFilter.match`: append a `FieldCondition(key, match=MatchValue(value))`
to the flat list. (`match` is a Lean keyword, hence the name.) -/
def QdrantFilter.matchCond (f : QdrantFilter) (key : String) (value : PyVal) : QdrantFilter :=
  { f with conditions := f.conditions ++ [.fieldMatchValue key value] }

/-- Source `QdrantFilter.match_any`. -/
def QdrantFilter.match_any (f : QdrantFilter) (key : String) (values : List PyVal) : QdrantFilter :=
  { f with conditions := f.conditions ++ [.fieldMatchAny key values] }

/-- Source `QdrantFilter.match_except`. -/
def QdrantFilter.match_except (f : QdrantFilter) (key_name : String) (values : List PyVal) : QdrantFilter :=
  { f with conditions := f.conditions ++ [.fieldMatchExcept key_name values] }

/-- Source `QdrantFilter.range`: append a range condition with exactly the bounds
passed; an omitted keyword argument is `None`. -/
def QdrantFilter.range (f : QdrantFilter) (key_name : String)
    (gt gte lt lte : Option PyVal) : QdrantFilter :=
  { f with conditions := f.conditions ++ [.fieldRange key_name gt gte lt lte] }

/-- Source `QdrantFilter.has_id`. -/
def QdrantFilter.has_id (f : QdrantFilter) (ids : List PointId) : QdrantFilter :=
  { f with conditions := f.conditions ++ [.hasId ids] }

/-- Source `QdrantFilter.has_vector`. -/
def QdrantFilter.has_vector (f : QdrantFilter) (vector_name : String) : QdrantFilter :=
  { f with conditions := f.conditions ++ [.hasVector vector_name] }

/-- Source `QdrantFilter.is_empty`. -/
def QdrantFilter.is_empty (f : QdrantFilter) (key_name : String) : QdrantFilter :=
  { f with conditions := f.conditions ++ [.isEmpty key_name] }

/-- Source `QdrantFilter.is_null`. -/
def QdrantFilter.is_null (f : QdrantFilter) (key_name : String) : QdrantFilter :=
  { f with conditions := f.conditions ++ [.isNull key_name] }

/-- Source `QdrantFilter.values_count`. -/
def QdrantFilter.values_count (f : QdrantFilter) (key : String)
    (gt gte lt lte : Option Int) : QdrantFilter :=
  { f with conditions := f.conditions ++ [.fieldValuesCount key gt gte lt lte] }

/-- Source `QdrantFilter.must`: a `QdrantFilter` argument contributes only its
`_conditions` list (`self._must.extend(condition._conditions)`); any other
condition object is appended as-is. -/
def QdrantFilter.must (f : QdrantFilter) (condition : Condition ⊕ QdrantFilter) : QdrantFilter :=
  match condition with
  | .inr g => { f with mustSlot := f.mustSlot ++ g.conditions }
  | .inl c => { f with mustSlot := f.mustSlot ++ [c] }

/-- Source `QdrantFilter.should`. -/
def QdrantFilter.should (f : QdrantFilter) (condition : Condition ⊕ QdrantFilter) : QdrantFilter :=
  match condition with
  | .inr g => { f with shouldSlot := f.shouldSlot ++ g.conditions }
  | .inl c => { f with shouldSlot := f.shouldSlot ++ [c] }

/-- Source `QdrantFilter.must_not`. -/
def QdrantFilter.must_not (f : QdrantFilter) (condition : Condition ⊕ QdrantFilter) : QdrantFilter :=
  match condition with
  | .inr g => { f with mustNotSlot := f.mustNotSlot ++ g.conditions }
  | .inl c => { f with mustNotSlot := f.mustNotSlot ++ [c] }

/-- One iteration of the `for key, value in filters.items()` loop of
`Qdrant._create_filter`: a dict value with both `gte` and `lte` keys becomes
`Range(gte=..., lte=...)` (gt and lt not passed, hence `None`); a dict with
any of the four bound keys becomes a `Range` with exactly the bounds present;
any other value (dicts included) becomes `MatchValue(value)`. -/
def compileEntry : String × PyVal → Condition
  | (key, .dict value) =>
    if containsKey value "gte" && containsKey value "lte" then
      .fieldRange key none (getKey value "gte") none (getKey value "lte")
    else if containsKey value "gt" || containsKey value "gte"
         || containsKey value "lt" || containsKey value "lte" then
      .fieldRange key (getKey value "gt") (getKey value "gte")
        (getKey value "lt") (getKey value "lte")
    else
      .fieldMatchValue key (.dict value)
  | (key, .str s) => .fieldMatchValue key (.str s)
  | (key, .int n) => .fieldMatchValue key (.int n)
  | (key, .bool b) => .fieldMatchValue key (.bool b)
  | (key, .float q) => .fieldMatchValue key (.float q)

/-- The `filters` argument of search/list/`_create_filter`: a legacy flat
mapping or a builder instance (`Union[Dict, FilterBase]`). -/
inductive FiltersArg where
  | dict : List (String × PyVal) → FiltersArg
  | builder : QdrantFilter → FiltersArg

/-- Source `Qdrant._create_filter`: `None` gives no filter; a builder delegates to
its own `build()`; a mapping is compiled entry-by-entry into one
`Filter(must=conditions)`, an empty mapping giving no filter. -/
def createFilter (filters : Option FiltersArg) : Except String (Option Filter) :=
  match filters with
  | none => .ok none
  | some (.builder f) => (f.build).map some
  | some (.dict m) =>
    let conditions := m.map compileEntry
    if conditions.isEmpty then .ok none
    else .ok (some { must := some conditions, should := none, mustNot := none })

/-- Python truthiness of the `filters` argument (`if filters`): `None` and an
empty dict are falsy; a builder object is truthy. -/
def truthyFilters : Option FiltersArg → Bool
  | none => false
  | some (.dict m) => !m.isEmpty
  | some (.builder _) => true

/-- The `query_filter` that `Qdrant.search` passes to the backend:
`self._create_filter(filters) if filters else None`. -/
def searchQueryFilter (filters : Option FiltersArg) : Except String (Option Filter) :=
  if truthyFilters filters then createFilter filters else .ok none

/-- The `scroll_filter` that `Qdrant.list` passes to the backend:
`self._create_filter(filters) if filters else None`. -/
def listQueryFilter (filters : Option FiltersArg) : Except String (Option Filter) :=
  if truthyFilters filters then createFilter filters else .ok none

/-- Distance metric enum (`qdrant_client.models.Distance`). -/
inductive Distance where
  | cosine
  | euclid
  | dot
deriving DecidableEq

/-- Source `qdrant_client.models.VectorParams`: the configuration passed to the
backend's collection-creation call. -/
structure VectorParams where
  size : Nat
  distance : Distance
  on_disk : Bool
deriving DecidableEq

/-- Source `Qdrant.create_col`: lists the existing collections; if one carries the
store's collection name the call returns without creating anything;
otherwise it issues `create_collection` with the given parameters. The
returned flag records whether a creation call was issued. -/
def Qdrant.create_col (cols : List (String × VectorParams)) (collection_name : String)
    (vector_size : Nat) (on_disk : Bool) (distance : Distance) :
    List (String × VectorParams) × Bool :=
  if cols.any (fun c => c.1 = collection_name) then
    (cols, false)
  else
    (cols ++ [(collection_name, ⟨vector_size, distance, on_disk⟩)], true)

/-- Source `qdrant_client.models.PointStruct` as the store constructs it: `update`
passes `vector=None` when the caller omits the vector, hence the `Option`. -/
structure PointStruct where
  id : PointId
  vector : Option (List Rat)
  payload : Option Payload

/-- Modelled from the spec: the backend's "vector upsert" primitive (§6),
whose native write is a full overwrite (§9) — each given point is stored
wholesale, replacing any existing point with the same id. -/
def upsert (points : List PointStruct) (newPoints : List PointStruct) : List PointStruct :=
  newPoints.foldl (fun acc p => acc.filter (fun q => decide (q.id ≠ p.id)) ++ [p]) points

/-- Source `Qdrant.insert`: builds one `PointStruct` per vector — id `ids[idx]` when
ids are given, else the positional index `idx`; payload `payloads[idx]` when
`payloads` is truthy, else `{}` — and upserts them in one call. Out-of-range
index lookups take a default here; in Python they raise `IndexError`, and no
theorem below exercises misaligned lengths. -/
def Qdrant.insert (points : List PointStruct) (vectors : List (List Rat))
    (payloads : Option (List Payload)) (ids : Option (List PointId)) : List PointStruct :=
  let newPoints := vectors.enum.map (fun iv =>
    { id := match ids with
            | none => .inr iv.1
            | some l => l.getD iv.1 (.inr iv.1),
      vector := some iv.2,
      payload := some (match payloads with
            | none => []
            | some ps => if ps.isEmpty then [] else ps.getD iv.1 []) })
  upsert points newPoints

/-- Modelled from the spec: the backend's "point retrieval by id list"
primitive (§6) — returns the stored records whose id is among those asked. -/
def retrieve (points : List PointStruct) (ids : List PointId) : List PointStruct :=
  points.filter (fun p => ids.any (fun i => decide (p.id = i)))

/-- Source `Qdrant.get`: retrieves by the one-element id list and returns
`result[0]` when the result is non-empty, else `None`. -/
def Qdrant.get (points : List PointStruct) (vector_id : PointId) : Option PointStruct :=
  (retrieve points [vector_id]).head?

/-- Source `Qdrant.update`: builds `PointStruct(id=vector_id, vector=vector,
payload=payload)` — both fields exactly as passed, `None` when omitted — and
upserts that single point. -/
def Qdrant.update (points : List PointStruct) (vector_id : PointId)
    (vector : Option (List Rat)) (payload : Option Payload) : List PointStruct :=
  upsert points [{ id := vector_id, vector := vector, payload := payload }]

/-! ## Theorems about the claims -/

/-- C3: `build()` fails with the filter-composition error exactly when the
builder's flat condition list is non-empty and at least one of the must,
should, must_not slots is non-empty; in every other state `build()` returns
a filter without failing. -/
theorem build_mixed_error_iff (f : QdrantFilter) :
    (f.build = Except.error "Cannot mix conditions with must/should/must_not clauses" ↔
      f.conditions ≠ [] ∧ (f.mustSlot ≠ [] ∨ f.shouldSlot ≠ [] ∨ f.mustNotSlot ≠ [])) ∧
    (f.conditions = [] ∨ (f.mustSlot = [] ∧ f.shouldSlot = [] ∧ f.mustNotSlot = []) →
      ∃ flt, f.build = Except.ok flt) := by
  unfold QdrantFilter.build
  rcases hc : f.conditions with _ | ⟨c, cs⟩ <;>
    rcases hm : f.mustSlot with _ | ⟨m, ms⟩ <;>
    rcases hs : f.shouldSlot with _ | ⟨s, ss⟩ <;>
    rcases hn : f.mustNotSlot with _ | ⟨n, ns⟩ <;>
    simp

/-- Closed instance of `build_mixed_error_iff`: a builder holding one flat
match condition and no slot builds successfully. -/
theorem build_mixed_error_iff_witness :
    ∃ flt, (QdrantFilter.empty.matchCond "field" (.str "value")).build = Except.ok flt :=
  (build_mixed_error_iff (QdrantFilter.empty.matchCond "field" (.str "value"))).2
    (Or.inr ⟨rfl, rfl, rfl⟩)

/-- C7: a composition method given a builder copies exactly the argument
builder's current flat condition list into the target slot, and the result
does not depend on the argument builder's own must/should/must_not slots. -/
theorem compose_copies_flat_conditions (f g g' : QdrantFilter)
    (h : g.conditions = g'.conditions) :
    (f.must (.inr g)).mustSlot = f.mustSlot ++ g.conditions ∧
    (f.should (.inr g)).shouldSlot = f.shouldSlot ++ g.conditions ∧
    (f.must_not (.inr g)).mustNotSlot = f.mustNotSlot ++ g.conditions ∧
    f.must (.inr g) = f.must (.inr g') ∧
    f.should (.inr g) = f.should (.inr g') ∧
    f.must_not (.inr g) = f.must_not (.inr g') := by
  simp [QdrantFilter.must, QdrantFilter.should, QdrantFilter.must_not, h]

/-- Closed instance of `compose_copies_flat_conditions`: two argument
builders sharing the flat list `[is_null "a"]` but with different slots
land identically in the receiving builder's slots. -/
theorem compose_copies_flat_conditions_witness :
    (QdrantFilter.empty.must (.inr (QdrantFilter.mk [.isNull "a"] [.isEmpty "b"] [] []))).mustSlot
        = QdrantFilter.empty.mustSlot ++ [Condition.isNull "a"] ∧
    (QdrantFilter.empty.should (.inr (QdrantFilter.mk [.isNull "a"] [.isEmpty "b"] [] []))).shouldSlot
        = QdrantFilter.empty.shouldSlot ++ [Condition.isNull "a"] ∧
    (QdrantFilter.empty.must_not (.inr (QdrantFilter.mk [.isNull "a"] [.isEmpty "b"] [] []))).mustNotSlot
        = QdrantFilter.empty.mustNotSlot ++ [Condition.isNull "a"] ∧
    QdrantFilter.empty.must (.inr (QdrantFilter.mk [.isNull "a"] [.isEmpty "b"] [] []))
        = QdrantFilter.empty.must (.inr (QdrantFilter.mk [.isNull "a"] [] [.isEmpty "c"] [])) ∧
    QdrantFilter.empty.should (.inr (QdrantFilter.mk [.isNull "a"] [.isEmpty "b"] [] []))
        = QdrantFilter.empty.should (.inr (QdrantFilter.mk [.isNull "a"] [] [.isEmpty "c"] [])) ∧
    QdrantFilter.empty.must_not (.inr (QdrantFilter.mk [.isNull "a"] [.isEmpty "b"] [] []))
        = QdrantFilter.empty.must_not (.inr (QdrantFilter.mk [.isNull "a"] [] [.isEmpty "c"] [])) :=
  compose_copies_flat_conditions QdrantFilter.empty
    (QdrantFilter.mk [.isNull "a"] [.isEmpty "b"] [] [])
    (QdrantFilter.mk [.isNull "a"] [] [.isEmpty "c"] []) rfl

/-- C1: contrary to the claim, a nested builder that itself uses
must/should/must_not slots is NOT embedded as-is. Each composition step
copies only the argument's flat condition list, so the tree
`must(must(must(should(must_not(cond)))))` built from fresh builders
collapses: every slot of every intermediate builder is dropped and `build()`
returns the empty filter instead of a depth-4 must chain ending in
`should` and `must_not` around `cond`. -/
theorem nested_builder_tree_dropped (cond : Condition) :
    (QdrantFilter.empty.must (.inr (QdrantFilter.empty.must (.inr
        (QdrantFilter.empty.must (.inr (QdrantFilter.empty.should (.inr
          (QdrantFilter.empty.must_not (.inl cond)))))))))).build
      = Except.ok { must := none, should := none, mustNot := none } :=
  rfl

/-- C9: `None` and the empty mapping compile to "no filter", and both
`search` and `list` then pass no filter to their backend queries. -/
theorem none_or_empty_is_no_filter :
    createFilter none = Except.ok none ∧
    createFilter (some (.dict [])) = Except.ok none ∧
    searchQueryFilter none = Except.ok none ∧
    searchQueryFilter (some (.dict [])) = Except.ok none ∧
    listQueryFilter none = Except.ok none ∧
    listQueryFilter (some (.dict [])) = Except.ok none :=
  ⟨rfl, rfl, rfl, rfl, rfl, rfl⟩

/-- C4: for a scalar value `v`, the legacy mapping `{key: v}` compiles
through `_create_filter` to exactly the filter the builder path
`match(key, v)` + `build()` produces; and any non-empty mapping's entries
combine under one implicit-AND `must` group. -/
theorem legacy_dict_equals_builder_match :
    (∀ (key : String) (v : PyVal), v.isDict = false →
      ∃ flt, (QdrantFilter.empty.matchCond key v).build = Except.ok flt ∧
        createFilter (some (.dict [(key, v)])) = Except.ok (some flt)) ∧
    (∀ (m : List (String × PyVal)), m ≠ [] →
      createFilter (some (.dict m)) =
        Except.ok (some { must := some (m.map compileEntry),
                          should := none, mustNot := none })) := by
  constructor
  · intro key v hv
    refine ⟨{ must := some [.fieldMatchValue key v], should := none, mustNot := none }, ?_, ?_⟩
    · rfl
    · cases v <;> simp_all [createFilter, compileEntry, PyVal.isDict]
  · intro m hm
    cases m with
    | nil => exact absurd rfl hm
    | cons e es => simp [createFilter]

/-- Closed instance of `legacy_dict_equals_builder_match`: the mapping
`{"field": "value"}` against the builder path, and a two-entry mapping
combined under one must group. -/
theorem legacy_dict_equals_builder_match_witness :
    (∃ flt, (QdrantFilter.empty.matchCond "field" (.str "value")).build = Except.ok flt ∧
      createFilter (some (.dict [("field", .str "value")])) = Except.ok (some flt)) ∧
    createFilter (some (.dict [("a", .int 1), ("b", .int 2)])) =
      Except.ok (some { must := some ([(("a" : String), PyVal.int 1),
                                       (("b" : String), PyVal.int 2)].map compileEntry),
                        should := none, mustNot := none }) :=
  ⟨legacy_dict_equals_builder_match.1 "field" (.str "value") rfl,
   legacy_dict_equals_builder_match.2 [("a", .int 1), ("b", .int 2)] (by simp)⟩

/-- C6: the legacy mapping `{key: {"gte": a, "lte": b}}` compiles to exactly
one Range condition with `gte = a`, `lte = b` and `gt`, `lt` unset; and the
builder call `range(key, gt=x, lt=y)` compiles to a Range with `gte` and
`lte` unset, never defaulted. -/
theorem range_bounds_exactly_as_given :
    (∀ (key : String) (a b : PyVal),
      createFilter (some (.dict [(key, .dict [("gte", a), ("lte", b)])])) =
        Except.ok (some { must := some [.fieldRange key none (some a) none (some b)],
                          should := none, mustNot := none })) ∧
    (∀ (key : String) (x y : PyVal),
      (QdrantFilter.empty.range key (some x) none (some y) none).build =
        Except.ok { must := some [.fieldRange key (some x) none (some y) none],
                    should := none, mustNot := none }) :=
  ⟨fun _ _ _ => rfl, fun _ _ _ => rfl⟩

/-- C10: a legacy mapping entry whose value is a dict containing none of the
keys gt, gte, lt, lte compiles, without failing, to a Match equality
condition carrying the entire sub-mapping as its value — not to a Range. -/
theorem dict_value_without_bounds_is_match (key : String) (sub : List (String × PyVal))
    (hgt : containsKey sub "gt" = false) (hgte : containsKey sub "gte" = false)
    (hlt : containsKey sub "lt" = false) (hlte : containsKey sub "lte" = false) :
    compileEntry (key, .dict sub) = .fieldMatchValue key (.dict sub) ∧
    createFilter (some (.dict [(key, .dict sub)])) =
      Except.ok (some { must := some [.fieldMatchValue key (.dict sub)],
                        should := none, mustNot := none }) := by
  have h1 : compileEntry (key, .dict sub) = .fieldMatchValue key (.dict sub) := by
    simp [compileEntry, hgt, hgte, hlt, hlte]
  exact ⟨h1, by simp [createFilter, h1]⟩

/-- Closed instance of `dict_value_without_bounds_is_match`: the sub-mapping
`{"foo": "bar"}` has no bound keys and compiles to a Match condition. -/
theorem dict_value_without_bounds_is_match_witness :
    compileEntry ("field", .dict [("foo", .str "bar")]) =
      .fieldMatchValue "field" (.dict [("foo", .str "bar")]) ∧
    createFilter (some (.dict [("field", .dict [("foo", .str "bar")])])) =
      Except.ok (some { must := some [.fieldMatchValue "field" (.dict [("foo", .str "bar")])],
                        should := none, mustNot := none }) :=
  dict_value_without_bounds_is_match "field" [("foo", .str "bar")] rfl rfl rfl rfl

/-- Upserting a single point and retrieving its id returns exactly that
point: the overwrite removes any earlier point with the same id, and points
with other ids are filtered out of the retrieval. -/
theorem get_upsert_single (s : List PointStruct) (pt : PointStruct) :
    Qdrant.get (upsert s [pt]) pt.id = some pt := by
  simp only [Qdrant.get, retrieve, upsert, List.foldl]
  rw [List.filter_append]
  have h1 : (s.filter (fun q => decide (q.id ≠ pt.id))).filter
      (fun p => [pt.id].any (fun i => decide (p.id = i))) = [] := by
    rw [List.filter_eq_nil_iff]
    intro a ha
    have := List.of_mem_filter ha
    simp_all
  have h2 : [pt].filter (fun p => [pt.id].any (fun i => decide (p.id = i))) = [pt] := by
    simp
  rw [h1, h2]
  rfl

/-- C5: inserting one vector with an explicit id and payload then getting
that id returns a record with exactly that embedding and payload; getting an
id stored nowhere in the collection returns `None` rather than a
placeholder record. -/
theorem insert_get_roundtrip :
    (∀ (s : List PointStruct) (v : List Rat) (p : Payload) (x : PointId),
      Qdrant.get (Qdrant.insert s [v] (some [p]) (some [x])) x =
        some { id := x, vector := some v, payload := some p }) ∧
    (∀ (s : List PointStruct) (i : PointId),
      (∀ pt ∈ s, pt.id ≠ i) → Qdrant.get s i = none) := by
  constructor
  · intro s v p x
    exact get_upsert_single s { id := x, vector := some v, payload := some p }
  · intro s i h
    simp only [Qdrant.get, retrieve]
    have : s.filter (fun p => [i].any (fun j => decide (p.id = j))) = [] := by
      rw [List.filter_eq_nil_iff]
      intro a ha
      simpa using h a ha
    rw [this]
    rfl

/-- Closed instance of `insert_get_roundtrip`: a one-point round-trip into an
empty collection, and a get on an id absent from a one-point collection. -/
theorem insert_get_roundtrip_witness :
    Qdrant.get (Qdrant.insert [] [[1, 2]] (some [[("k", .str "v")]]) (some [.inl "x"])) (.inl "x") =
      some { id := .inl "x", vector := some [1, 2], payload := some [("k", PyVal.str "v")] } ∧
    Qdrant.get [{ id := .inl "y", vector := some [3], payload := some [] }] (.inl "x") = none :=
  ⟨insert_get_roundtrip.1 [] [1, 2] [("k", .str "v")] (.inl "x"),
   insert_get_roundtrip.2 [{ id := .inl "y", vector := some [3], payload := some [] }]
     (.inl "x") (by intro pt hpt; rw [List.mem_singleton] at hpt; subst hpt; simp)⟩

/-- C2: contrary to the claim, calling `update` with a payload but no vector
does not preserve the stored embedding — the code upserts a whole
`PointStruct` with `vector=None`, overwriting the record: the embedding
stored for `"x"` goes from `[1]` before the call to `None` after it. -/
theorem update_without_vector_clears_embedding :
    (Qdrant.get [{ id := .inl "x", vector := some [1], payload := some [("k", .str "old")] }]
        (.inl "x")).map PointStruct.vector = some (some [1]) ∧
    (Qdrant.get (Qdrant.update
        [{ id := .inl "x", vector := some [1], payload := some [("k", .str "old")] }]
        (.inl "x") none (some [("k", .str "new")])) (.inl "x")).map PointStruct.vector
      = some none :=
  ⟨rfl, rfl⟩

/-- C8: when no collection carries the name yet, two `create_col` calls with
the same parameters leave the state of the first call unchanged — the second
call issues no creation call — and exactly one collection carries the name.
Neither call has a failure path. -/
theorem create_col_idempotent (cols : List (String × VectorParams)) (name : String)
    (size : Nat) (onDisk : Bool) (dist : Distance)
    (h : cols.any (fun c => c.1 = name) = false) :
    Qdrant.create_col (Qdrant.create_col cols name size onDisk dist).1 name size onDisk dist
      = ((Qdrant.create_col cols name size onDisk dist).1, false) ∧
    ((Qdrant.create_col cols name size onDisk dist).1.filter
        (fun c => c.1 = name)).length = 1 := by
  have h1 : Qdrant.create_col cols name size onDisk dist
      = (cols ++ [(name, ⟨size, dist, onDisk⟩)], true) := by
    simp [Qdrant.create_col, h]
  have hall : ∀ (a : String) (b : VectorParams), (a, b) ∈ cols → ¬(a = name) := by
    simpa using h
  constructor
  · rw [h1]
    simp [Qdrant.create_col]
  · rw [h1]
    simp only [List.filter_append]
    rw [List.filter_eq_nil_iff.mpr (by intro c hc; simpa using hall c.1 c.2 hc)]
    simp

/-- Closed instance of `create_col_idempotent`: creating `"test_collection"`
twice with dimension 128 starting from an empty backend. -/
theorem create_col_idempotent_witness :
    Qdrant.create_col (Qdrant.create_col [] "test_collection" 128 true .cosine).1
        "test_collection" 128 true .cosine
      = ((Qdrant.create_col [] "test_collection" 128 true .cosine).1, false) ∧
    ((Qdrant.create_col [] "test_collection" 128 true .cosine).1.filter
        (fun c => c.1 = "test_collection")).length = 1 :=
  create_col_idempotent [] "test_collection" 128 true .cosine rfl

end Mem0
